import Mathlib

/-!
Verification of the agent demonstration scripts.

The repository holds two Python scripts:

* `src/agent.py` — a base `Agent` class (name, role, message inbox), an
  `AssistantAgent` answering prompts from a fixed knowledge-base dictionary,
  and a demonstration `main`.
* `src/agent_final.py` — the same base `Agent`, an async `AssistantAgent`
  whose `act` first checks for the substring `"weather"` and then falls back
  to the dictionary, plus a `KnowledgeGraphAgent` querying a hand-built
  `networkx` graph.

This file embeds those classes shallowly: methods that only read state are
pure functions returning strings; methods that also leave the object behind
return the (unchanged) object explicitly; the mutation in `send_message`
becomes an explicit record update.  Python string primitives (`lower`,
`strip`, `in`, `split`) are modelled on `List Char`, with `lower` restricted
to the ASCII range (all data in the scripts is ASCII).
-/

/-! ## Python string primitives -/

/-- Model of Python `str.lower()`, restricted to ASCII: `Char.toLower`
lowercases `A`–`Z` and leaves every other character unchanged. -/
def pyLower (s : String) : String :=
  String.mk (s.data.map Char.toLower)

/-- The whitespace characters stripped by Python `str.strip()` (ASCII part). -/
def isPySpace (c : Char) : Bool :=
  c == ' ' || c == '\t' || c == '\n' || c == '\r' || c == '\x0b' || c == '\x0c'

/-- Drop the characters satisfying `p` from both ends of a list. -/
def stripWhile (p : Char → Bool) (l : List Char) : List Char :=
  ((l.dropWhile p).reverse.dropWhile p).reverse

/-- Model of Python `str.strip()` with no argument. -/
def pyStrip (s : String) : String :=
  String.mk (stripWhile isPySpace s.data)

/-- Model of Python `str.strip(chars)`: drop any of the given characters from
both ends. -/
def pyStripChars (cs : List Char) (s : String) : String :=
  String.mk (stripWhile (fun c => cs.contains c) s.data)

/-- Model of the Python substring test `sub in s`: `sub` occurs contiguously. -/
def containsSub (sub : List Char) : List Char → Bool
  | [] => sub.isEmpty
  | c :: rest => sub.isPrefixOf (c :: rest) || containsSub sub rest

/-- Model of Python `str.split(sep)` for a nonempty separator `sep`: split on
every non-overlapping occurrence of `sep`, scanning left to right. -/
def splitSub (sep : List Char) : List Char → List (List Char)
  | [] => [[]]
  | c :: rest =>
    if sep.isPrefixOf (c :: rest) then
      [] :: splitSub sep (rest.drop (sep.length - 1))
    else
      match splitSub sep rest with
      | [] => [[c]]
      | p :: ps => (c :: p) :: ps
termination_by l => l.length
decreasing_by
  · simp [List.length_drop]
    omega
  · simp

/-- Model of Python `dict.get(k)` on an association list with unique keys:
the first binding of `k`, if any. -/
def kb_lookup (kb : List (String × String)) (k : String) : Option (String × String) :=
  kb.find? (fun kv => kv.1 == k)

/-- Model of Python `dict.get(k, default)`. -/
def dict_get (kb : List (String × String)) (k : String) (default : String) : String :=
  match kb_lookup kb k with
  | some kv => kv.2
  | none => default

/-- The prompt normalisation `prompt.lower().strip()` shared by both
`AssistantAgent.act` variants. -/
def clean_prompt (prompt : String) : String :=
  pyStrip (pyLower prompt)

/-! ## The base `Agent` class

The `Agent` class is textually identical in `src/agent.py` (lines 3–50) and
`src/agent_final.py` (lines 15–62), except that the final variant declares
`act` as `async`; awaiting it yields the same string.  It is embedded once. -/

structure Agent where
  name : String
  role : String
  message_inbox : List String

/-- `Agent.__init__` (src/agent.py lines 10–20): empty inbox. -/
def mkAgent (name role : String) : Agent :=
  ⟨name, role, []⟩

/-- `Agent.act` (src/agent.py lines 22–39): a canned string depending only on
name, role and prompt; Python truthiness of `prompt` is nonemptiness. -/
def Agent.act (a : Agent) (prompt : String) : String :=
  if prompt ≠ "" then
    "Agent " ++ a.name ++ " (" ++ a.role ++ ") is acting on prompt: '" ++ prompt ++ "'."
  else
    "Agent " ++ a.name ++ " (" ++ a.role ++ ") is performing a generic action."

/-- `Agent.send_message` (src/agent.py lines 41–50): append the message to the
recipient's inbox.  The mutation of `recipient` is modelled by returning the
pair (sender, updated recipient). -/
def Agent.send_message (sender recipient : Agent) (message : String) : Agent × Agent :=
  (sender, ⟨recipient.name, recipient.role, recipient.message_inbox ++ [message]⟩)

/-- Repeated `send_message` calls from `sender` to the same recipient, in
list order. -/
def send_all (sender : Agent) (recipient : Agent) : List String → Agent
  | [] => recipient
  | m :: ms => send_all sender (sender.send_message recipient m).2 ms

/-! ## The synchronous `AssistantAgent` (src/agent.py) -/

structure AssistantAgent where
  name : String
  role : String
  message_inbox : List String
  knowledge_base : List (String × String)

/-- The fallback of both `AssistantAgent.act` variants (src/agent.py line 94,
src/agent_final.py line 132). -/
def fallback_response : String :=
  "I'm sorry, I don't understand that request. Try asking for 'help'."

/-- `AssistantAgent.__init__` (src/agent.py lines 60–76): the fixed
five-entry knowledge base; the `name` entry interpolates the agent's name. -/
def mkAssistantAgent (name role : String) : AssistantAgent :=
  ⟨name, role, [],
    [("hello", "Hello! How can I help you today?"),
     ("weather", "I can't check the current weather, but I can tell you it's always sunny in my code!"),
     ("name", "My name is " ++ name ++ ". What's yours?"),
     ("time", "I don't have access to real-time information, but it's a great time to code!"),
     ("help", "I can help you with questions about my name, the weather, and general greetings.")]⟩

/-- `AssistantAgent.act` (src/agent.py lines 78–100): normalise the prompt and
look it up, with the fallback as default.  The method writes no attribute, so
the agent is returned unchanged alongside the response. -/
def AssistantAgent.act (a : AssistantAgent) (prompt : String) : String × AssistantAgent :=
  let cp := clean_prompt prompt
  let response := dict_get a.knowledge_base cp fallback_response
  (response, a)

/-- A sequence of `act` calls on a synchronous assistant, keeping the final
agent state. -/
def run_acts (a : AssistantAgent) : List String → AssistantAgent
  | [] => a
  | p :: ps => run_acts (AssistantAgent.act a p).2 ps

/-- Effect of the inherited `Agent.send_message` when the recipient is an
`AssistantAgent` (src/agent.py line 50): append to its inbox only. -/
def send_message_assistant (recipient : AssistantAgent) (message : String) : AssistantAgent :=
  ⟨recipient.name, recipient.role, recipient.message_inbox ++ [message], recipient.knowledge_base⟩

/-! ## The asynchronous variant (src/agent_final.py)

The async methods have no internal suspension besides the awaited
weather-client call, so awaiting them is modelled as plain evaluation, with
the third-party client as an oracle from city to outcome. -/

/-- Outcome of the awaited call `self.weather_client.get(city)`
(src/agent_final.py line 102): either a current temperature and description,
or a raised exception, carried as its string form `str(e)`. -/
inductive WeatherOutcome where
  | success : Int → String → WeatherOutcome
  | failure : String → WeatherOutcome

namespace Final

structure AssistantAgent where
  name : String
  role : String
  message_inbox : List String
  knowledge_base : List (String × String)
  weather_client : String → WeatherOutcome

/-- `AssistantAgent.__init__` (src/agent_final.py lines 72–89): the fixed
four-entry knowledge base (no `"weather"` key) and the weather client. -/
def mkAssistantAgent (name role : String) (client : String → WeatherOutcome) : AssistantAgent :=
  ⟨name, role, [],
    [("hello", "Hello! How can I help you today?"),
     ("name", "My name is " ++ name ++ ". What's yours?"),
     ("time", "I don't have access to real-time information, but it's a great time to code!"),
     ("help", "I can help you with questions about my name, the weather, and general greetings.")],
    client⟩

/-- `AssistantAgent.get_weather_info` (src/agent_final.py lines 91–107):
format the client's answer, or stringify the exception caught by the
catch-all `except`. -/
def AssistantAgent.get_weather_info (a : AssistantAgent) (city : String) : String :=
  match a.weather_client city with
  | WeatherOutcome.success temperature description =>
      "The current temperature in " ++ city ++ " is " ++ toString temperature ++
        "°C with " ++ description ++ "."
  | WeatherOutcome.failure e =>
      "Sorry, I couldn't get the weather for " ++ city ++ ". Error: " ++ e

/-- `AssistantAgent.act` (src/agent_final.py lines 109–138): normalise the
prompt; if it contains `"weather"` answer with the weather lookup for
Bangalore, otherwise with the dictionary lookup.  No attribute is written, so
the agent comes back unchanged. -/
def AssistantAgent.act (a : AssistantAgent) (prompt : String) : String × AssistantAgent :=
  let cp := clean_prompt prompt
  let response :=
    if containsSub "weather".data cp.data then
      a.get_weather_info "Bangalore"
    else
      dict_get a.knowledge_base cp fallback_response
  (response, a)

/-- A sequence of `act` calls on an async assistant, keeping the final agent
state. -/
def run_acts (a : AssistantAgent) : List String → AssistantAgent
  | [] => a
  | p :: ps => run_acts (AssistantAgent.act a p).2 ps

/-- Effect of the inherited `Agent.send_message` when the recipient is the
async `AssistantAgent` (src/agent_final.py line 62). -/
def send_message_assistant (recipient : AssistantAgent) (message : String) : AssistantAgent :=
  ⟨recipient.name, recipient.role, recipient.message_inbox ++ [message],
    recipient.knowledge_base, recipient.weather_client⟩

/-! ### The knowledge graph -/

/-- An undirected `networkx.Graph` as built by `add_edge` calls: node list and
edge list in insertion order. -/
structure KnowledgeGraph where
  nodes : List String
  edges : List (String × String)

def KnowledgeGraph.empty : KnowledgeGraph := ⟨[], []⟩

/-- `networkx` adds the endpoints of a new edge as nodes when absent. -/
def KnowledgeGraph.add_node (g : KnowledgeGraph) (n : String) : KnowledgeGraph :=
  if g.nodes.contains n then g else ⟨g.nodes ++ [n], g.edges⟩

/-- `networkx.Graph.add_edge`: register both endpoints, then the undirected
edge unless already present. -/
def KnowledgeGraph.add_edge (g : KnowledgeGraph) (a b : String) : KnowledgeGraph :=
  let g2 := (g.add_node a).add_node b
  if g2.edges.contains (a, b) || g2.edges.contains (b, a) then g2
  else ⟨g2.nodes, g2.edges ++ [(a, b)]⟩

/-- `networkx.Graph.neighbors n` in adjacency insertion order: the opposite
endpoint of each edge touching `n`. -/
def KnowledgeGraph.neighbors (g : KnowledgeGraph) (n : String) : List String :=
  g.edges.filterMap (fun e =>
    if e.1 == n then some e.2 else if e.2 == n then some e.1 else none)

structure KnowledgeGraphAgent where
  name : String
  role : String
  message_inbox : List String
  graph : KnowledgeGraph

/-- The target-node parse of `KnowledgeGraphAgent.act`
(src/agent_final.py lines 170–174): lowercase the query, split on `"to "`,
take piece 1 and strip `'?'` and `' '` from its ends. -/
def parsed_target (query : String) : String :=
  pyStripChars ['?', ' '] (String.mk ((splitSub "to ".data (pyLower query).data).getD 1 []))

/-- `KnowledgeGraphAgent.act` (src/agent_final.py lines 157–190): parse the
query, then answer the format error, the missing-node message, or the
neighbor listing.  Only reads the graph; the agent comes back unchanged. -/
def KnowledgeGraphAgent.act (ag : KnowledgeGraphAgent) (query : String) : String × KnowledgeGraphAgent :=
  let parts := splitSub "to ".data (pyLower query).data
  let response :=
    if parts.length < 2 then
      "Query format not understood. Please use 'Who is connected to [Node Name]?''"
    else
      let target_node := pyStripChars ['?', ' '] (String.mk (parts.getD 1 []))
      if ag.graph.nodes.contains target_node = false then
        "The node '" ++ target_node ++ "' does not exist in the graph."
      else
        let neighbors := ag.graph.neighbors target_node
        if neighbors.isEmpty then
          "'" ++ target_node ++ "' has no connections in the graph."
        else
          "The following are connected to '" ++ target_node ++ "': " ++
            String.intercalate ", " neighbors ++ "."
  (response, ag)

/-- The hand-built demonstration graph of `main`
(src/agent_final.py lines 246–251). -/
def demo_graph : KnowledgeGraph :=
  ((((KnowledgeGraph.empty.add_edge "Hospital" "Doctor").add_edge
      "Doctor" "Patient A").add_edge
      "Doctor" "Patient B").add_edge
      "Doctor" "Nurse").add_edge
      "Hospital" "Clinic"

/-- The `KnowledgeGraphAgent` of `main` (src/agent_final.py line 254). -/
def graph_agent : KnowledgeGraphAgent :=
  ⟨"GraphBot", "graph_query_agent", [], demo_graph⟩

end Final

/-! ## Helper lemmas on the string primitives -/

lemma char_le_iff {a b : Char} : a ≤ b ↔ a.toNat ≤ b.toNat := by
  rw [Char.le_def, UInt32.le_def, BitVec.le_def]
  rfl

lemma toNat_ofNat_valid (n : Nat) (h : Nat.isValidChar n) : (Char.ofNat n).toNat = n := by
  rw [Char.ofNat, dif_pos h]
  rfl

lemma toLower_toNat (c : Char) :
    (Char.toLower c).toNat = if 65 ≤ c.toNat ∧ c.toNat ≤ 90 then c.toNat + 32 else c.toNat := by
  unfold Char.toLower
  split
  case isTrue h =>
    rw [if_pos h]
    exact toNat_ofNat_valid _ (Or.inl (by omega))
  case isFalse h =>
    rw [if_neg h]

/-- ASCII lowercasing never yields an uppercase ASCII letter. -/
lemma toLower_not_upper (c : Char) : ¬('A' ≤ Char.toLower c ∧ Char.toLower c ≤ 'Z') := by
  rintro ⟨h1, h2⟩
  rw [char_le_iff] at h1 h2
  have hA : ('A' : Char).toNat = 65 := rfl
  have hZ : ('Z' : Char).toNat = 90 := rfl
  rw [hA] at h1
  rw [hZ] at h2
  rw [toLower_toNat] at h1 h2
  by_cases hc : 65 ≤ c.toNat ∧ c.toNat ≤ 90
  · rw [if_pos hc] at h1 h2
    omega
  · rw [if_neg hc] at h1 h2
    omega

lemma splitSub_ne_nil (sep l : List Char) : splitSub sep l ≠ [] := by
  cases l with
  | nil => simp [splitSub]
  | cons c rest =>
    rw [splitSub]
    split
    · simp
    · split <;> simp

/-- A separator-free list is returned whole by `splitSub`. -/
lemma splitSub_of_not_contains (sep : List Char) (l : List Char)
    (h : containsSub sep l = false) : splitSub sep l = [l] := by
  induction l with
  | nil => simp [splitSub]
  | cons c rest ih =>
    rw [containsSub] at h
    simp only [Bool.or_eq_false_iff] at h
    rw [splitSub]
    rw [if_neg (by simp [h.1])]
    rw [ih h.2]

/-- A list containing a nonempty separator splits into at least two pieces. -/
lemma two_le_splitSub_of_contains (sep : List Char) (hsep : sep ≠ []) (l : List Char)
    (h : containsSub sep l = true) : 2 ≤ (splitSub sep l).length := by
  induction l using splitSub.induct sep with
  | case1 =>
    rw [containsSub] at h
    simp [List.isEmpty_iff] at h
    exact absurd h hsep
  | case2 c rest hpre ih =>
    rw [splitSub, if_pos hpre]
    have hne := splitSub_ne_nil sep (rest.drop (sep.length - 1))
    cases hsp : splitSub sep (rest.drop (sep.length - 1)) with
    | nil => exact absurd hsp hne
    | cons p ps => simp
  | case3 c rest hpre hm ih =>
    exact absurd hm (splitSub_ne_nil sep rest)
  | case4 c rest hpre p ps hm ih =>
    rw [containsSub] at h
    rw [Bool.or_eq_true] at h
    rcases h with h | h
    · exact absurd h (by simpa using hpre)
    · rw [splitSub, if_neg hpre, hm]
      have h2 := ih h
      rw [hm] at h2
      simpa using h2

/-- Every character of every `splitSub` piece comes from the split list. -/
lemma splitSub_subset (sep : List Char) :
    ∀ (l : List Char), ∀ p ∈ splitSub sep l, ∀ c ∈ p, c ∈ l := by
  intro l
  induction l using splitSub.induct sep with
  | case1 =>
    intro p hp c hc
    simp [splitSub] at hp
    subst hp
    simp at hc
  | case2 c0 rest hpre ih =>
    intro p hp c hc
    rw [splitSub, if_pos hpre] at hp
    rcases List.mem_cons.mp hp with h | h
    · subst h
      simp at hc
    · have hr := ih p h c hc
      exact List.mem_cons_of_mem _ (List.mem_of_mem_drop hr)
  | case3 c0 rest hpre hm ih =>
    exact absurd hm (splitSub_ne_nil sep rest)
  | case4 c0 rest hpre p' ps hm ih =>
    intro p hp c hc
    rw [splitSub, if_neg hpre, hm] at hp
    rcases List.mem_cons.mp hp with h | h
    · subst h
      rcases List.mem_cons.mp hc with h | h
      · subst h
        exact List.mem_cons_self _ _
      · have hr : c ∈ rest := ih p' (by rw [hm]; exact List.mem_cons_self _ _) c h
        exact List.mem_cons_of_mem _ hr
    · have hr : c ∈ rest := ih p (by rw [hm]; exact List.mem_cons_of_mem _ h) c hc
      exact List.mem_cons_of_mem _ hr

lemma stripWhile_subset (p : Char → Bool) (l : List Char) : stripWhile p l ⊆ l := by
  intro c hc
  unfold stripWhile at hc
  rw [List.mem_reverse] at hc
  have h2 := List.dropWhile_subset p hc
  rw [List.mem_reverse] at h2
  exact List.dropWhile_subset p h2

/-- No character of a lowercased string is an uppercase ASCII letter. -/
lemma pyLower_no_upper (s : String) (c : Char) (hc : c ∈ (pyLower s).data) :
    ¬('A' ≤ c ∧ c ≤ 'Z') := by
  unfold pyLower at hc
  rcases List.mem_map.mp hc with ⟨c0, _, hc0⟩
  rw [← hc0]
  exact toLower_not_upper c0

/-- A string holding at least one uppercase ASCII letter. -/
def has_upper_ascii (s : String) : Bool :=
  s.data.any (fun c => decide ('A' ≤ c) && decide (c ≤ 'Z'))

lemma assistant_act_snd (a : AssistantAgent) (prompt : String) :
    (AssistantAgent.act a prompt).2 = a := rfl

lemma final_assistant_act_snd (a : Final.AssistantAgent) (prompt : String) :
    (Final.AssistantAgent.act a prompt).2 = a := rfl

lemma kg_act_snd (ag : Final.KnowledgeGraphAgent) (query : String) :
    (Final.KnowledgeGraphAgent.act ag query).2 = ag := rfl

/-- Core behaviour of `KnowledgeGraphAgent.act` on a well-formed query whose
parsed target is not a node. -/
lemma kg_act_absent_core (ag : Final.KnowledgeGraphAgent) (query : String)
    (hwf : containsSub "to ".data (pyLower query).data = true)
    (habs : ag.graph.nodes.contains (Final.parsed_target query) = false) :
    Final.KnowledgeGraphAgent.act ag query =
      ("The node '" ++ Final.parsed_target query ++ "' does not exist in the graph.", ag) := by
  have hlen : 2 ≤ (splitSub "to ".data (pyLower query).data).length :=
    two_le_splitSub_of_contains _ (by decide) _ hwf
  have hd : "to ".data = ['t', 'o', ' '] := rfl
  rw [Final.parsed_target] at habs
  rw [hd] at hlen habs
  simp only [Final.KnowledgeGraphAgent.act]
  rw [if_neg (by omega)]
  rw [if_pos habs]
  rw [Final.parsed_target]

/-- For a well-formed query, the parsed target is a piece of the lowercased
query, so it holds no uppercase ASCII letter. -/
lemma parsed_target_no_upper (query : String)
    (hwf : containsSub "to ".data (pyLower query).data = true)
    (c : Char) (hc : c ∈ (Final.parsed_target query).data) :
    ¬('A' ≤ c ∧ c ≤ 'Z') := by
  have hlen : 2 ≤ (splitSub "to ".data (pyLower query).data).length :=
    two_le_splitSub_of_contains _ (by decide) _ hwf
  unfold Final.parsed_target pyStripChars at hc
  have h1 : c ∈ (splitSub "to ".data (pyLower query).data).getD 1 [] :=
    stripWhile_subset _ _ hc
  have h2 : (splitSub "to ".data (pyLower query).data).getD 1 [] ∈
      splitSub "to ".data (pyLower query).data := by
    rw [List.getD_eq_getElem?_getD]
    rw [List.getElem?_eq_getElem (by omega)]
    exact List.getElem_mem _
  have h3 : c ∈ (pyLower query).data := splitSub_subset _ _ _ h2 c h1
  exact pyLower_no_upper query c h3

/-- If every node name holds an uppercase ASCII letter, no well-formed query
can parse to an existing node. -/
lemma kg_upper_not_contains (ag : Final.KnowledgeGraphAgent) (query : String)
    (hup : ∀ n ∈ ag.graph.nodes, has_upper_ascii n = true)
    (hwf : containsSub "to ".data (pyLower query).data = true) :
    ag.graph.nodes.contains (Final.parsed_target query) = false := by
  by_contra h
  rw [Bool.not_eq_false] at h
  have hmem : Final.parsed_target query ∈ ag.graph.nodes := by
    simpa using h
  have hu := hup _ hmem
  unfold has_upper_ascii at hu
  rw [List.any_eq_true] at hu
  rcases hu with ⟨c, hc, hcu⟩
  simp only [Bool.and_eq_true, decide_eq_true_eq] at hcu
  exact parsed_target_no_upper query hwf c hc hcu

lemma dict_get_some (kb : List (String × String)) (k d : String) (kv : String × String)
    (h : kb_lookup kb k = some kv) : dict_get kb k d = kv.2 := by
  unfold dict_get
  rw [h]

lemma dict_get_none (kb : List (String × String)) (k d : String)
    (h : kb_lookup kb k = none) : dict_get kb k d = d := by
  unfold dict_get
  rw [h]

/-! ## The claims -/

/-- Claim C5: `send_message` appends the message to the end of the
recipient's inbox, preserving the earlier messages and their order, so
repeated sends leave the inbox in send order; the recipient's name and role
and the sender are untouched. -/
theorem send_message_appends_in_order :
    (∀ (sender recipient : Agent) (message : String),
      (Agent.send_message sender recipient message).2.message_inbox
          = recipient.message_inbox ++ [message]
      ∧ (Agent.send_message sender recipient message).2.name = recipient.name
      ∧ (Agent.send_message sender recipient message).2.role = recipient.role
      ∧ (Agent.send_message sender recipient message).1 = sender)
    ∧ (∀ (sender recipient : Agent) (ms : List String),
      (send_all sender recipient ms).message_inbox = recipient.message_inbox ++ ms) := by
  constructor
  · intro sender recipient message
    exact ⟨rfl, rfl, rfl, rfl⟩
  · intro sender recipient ms
    induction ms generalizing recipient with
    | nil => simp [send_all]
    | cons m ms ih =>
      rw [send_all]
      rw [ih]
      simp [Agent.send_message]

/-- Claim C6: `get_weather_info` always returns a string — the formatted
temperature/description on a successful client call, and the
`"Sorry, I couldn't get the weather for {city}. Error: {e}"` string, with the
stringified exception, on any raised exception. -/
theorem get_weather_info_no_exn (a : Final.AssistantAgent) (city : String) :
    (∃ t d, a.weather_client city = WeatherOutcome.success t d ∧
      Final.AssistantAgent.get_weather_info a city =
        "The current temperature in " ++ city ++ " is " ++ toString t ++
          "°C with " ++ d ++ ".")
    ∨ (∃ e, a.weather_client city = WeatherOutcome.failure e ∧
      Final.AssistantAgent.get_weather_info a city =
        "Sorry, I couldn't get the weather for " ++ city ++ ". Error: " ++ e) := by
  cases h : a.weather_client city with
  | success t d =>
    refine Or.inl ⟨t, d, rfl, ?_⟩
    unfold Final.AssistantAgent.get_weather_info
    rw [h]
  | failure e =>
    refine Or.inr ⟨e, rfl, ?_⟩
    unfold Final.AssistantAgent.get_weather_info
    rw [h]

/-- Claim C7: the base `Agent.act` returns a canned string determined only by
name, role and prompt — one form for a non-empty prompt, another for the
empty prompt. -/
theorem base_agent_act_canned (a : Agent) (prompt : String) :
    (prompt ≠ "" →
      Agent.act a prompt =
        "Agent " ++ a.name ++ " (" ++ a.role ++ ") is acting on prompt: '" ++ prompt ++ "'.")
    ∧ Agent.act a "" =
        "Agent " ++ a.name ++ " (" ++ a.role ++ ") is performing a generic action." := by
  constructor
  · intro h
    rw [Agent.act, if_pos h]
  · rw [Agent.act, if_neg (by simp)]

/-- Witness for C7 at a concrete agent and non-empty prompt. -/
theorem base_agent_act_canned_witness :
    Agent.act ⟨"Alice", "coordinator", []⟩ "hi"
      = "Agent Alice (coordinator) is acting on prompt: 'hi'." :=
  (base_agent_act_canned ⟨"Alice", "coordinator", []⟩ "hi").1 (by decide)

/-- Claim C8: an assistant's knowledge base, name and role are fixed after
construction — any sequence of `act` calls (in either variant) leaves the
whole agent unchanged, `get_weather_info` is a pure read, and the inherited
`send_message` addressed to the agent changes only its `message_inbox`. -/
theorem assistant_state_frame :
    (∀ (a : AssistantAgent) (prompts : List String), run_acts a prompts = a)
    ∧ (∀ (a : Final.AssistantAgent) (prompts : List String), Final.run_acts a prompts = a)
    ∧ (∀ (a : AssistantAgent) (m : String),
        (send_message_assistant a m).name = a.name
        ∧ (send_message_assistant a m).role = a.role
        ∧ (send_message_assistant a m).knowledge_base = a.knowledge_base
        ∧ (send_message_assistant a m).message_inbox = a.message_inbox ++ [m])
    ∧ (∀ (a : Final.AssistantAgent) (m : String),
        (Final.send_message_assistant a m).name = a.name
        ∧ (Final.send_message_assistant a m).role = a.role
        ∧ (Final.send_message_assistant a m).knowledge_base = a.knowledge_base
        ∧ (Final.send_message_assistant a m).weather_client = a.weather_client
        ∧ (Final.send_message_assistant a m).message_inbox = a.message_inbox ++ [m]) := by
  refine ⟨?_, ?_, ?_, ?_⟩
  · intro a prompts
    induction prompts generalizing a with
    | nil => rfl
    | cons p ps ih =>
      rw [run_acts, assistant_act_snd]
      exact ih a
  · intro a prompts
    induction prompts generalizing a with
    | nil => rfl
    | cons p ps ih =>
      rw [Final.run_acts, final_assistant_act_snd]
      exact ih a
  · intro a m
    exact ⟨rfl, rfl, rfl, rfl⟩
  · intro a m
    exact ⟨rfl, rfl, rfl, rfl, rfl⟩

/-- Claim C9: the hand-built demonstration graph has exactly the six nodes
and five edges added in `main`, in insertion order, and the graph agent's
`act` never modifies its state. -/
theorem demo_graph_shape_and_readonly :
    Final.demo_graph.nodes = ["Hospital", "Doctor", "Patient A", "Patient B", "Nurse", "Clinic"]
    ∧ Final.demo_graph.edges = [("Hospital", "Doctor"), ("Doctor", "Patient A"),
        ("Doctor", "Patient B"), ("Doctor", "Nurse"), ("Hospital", "Clinic")]
    ∧ Final.demo_graph.nodes.length = 6
    ∧ Final.demo_graph.edges.length = 5
    ∧ (∀ query : String,
        (Final.KnowledgeGraphAgent.act Final.graph_agent query).2 = Final.graph_agent) :=
  ⟨rfl, rfl, rfl, rfl, fun _ => rfl⟩

/-- Claim C10: a query without the substring `"to "` (after lowercasing) gets
the fixed format-error message, and the agent (hence the graph) is unchanged. -/
theorem kg_malformed_query_message (ag : Final.KnowledgeGraphAgent) (query : String)
    (h : containsSub "to ".data (pyLower query).data = false) :
    Final.KnowledgeGraphAgent.act ag query =
      ("Query format not understood. Please use 'Who is connected to [Node Name]?''", ag) := by
  have hs : splitSub "to ".data (pyLower query).data = [(pyLower query).data] :=
    splitSub_of_not_contains _ _ h
  have hd : "to ".data = ['t', 'o', ' '] := rfl
  rw [hd] at hs
  simp only [Final.KnowledgeGraphAgent.act]
  rw [hs]
  rw [if_pos (by simp)]

/-- Witness for C10 at a concrete malformed query. -/
theorem kg_malformed_query_message_witness :
    Final.KnowledgeGraphAgent.act Final.graph_agent "hello" =
      ("Query format not understood. Please use 'Who is connected to [Node Name]?''",
        Final.graph_agent) :=
  kg_malformed_query_message Final.graph_agent "hello" (by decide)

/-- Claim C3: a well-formed query (one containing `"to "` after lowercasing)
whose parsed target node is not in the graph gets the fixed
does-not-exist message, and the agent (hence the graph) is unchanged. -/
theorem kg_absent_node_message (ag : Final.KnowledgeGraphAgent) (query : String)
    (hwf : containsSub "to ".data (pyLower query).data = true)
    (habs : ag.graph.nodes.contains (Final.parsed_target query) = false) :
    Final.KnowledgeGraphAgent.act ag query =
      ("The node '" ++ Final.parsed_target query ++ "' does not exist in the graph.", ag) :=
  kg_act_absent_core ag query hwf habs

/-- Witness for C3: querying the demonstration graph for the absent node
`Janitor`. -/
theorem kg_absent_node_message_witness :
    Final.KnowledgeGraphAgent.act Final.graph_agent "Who is connected to Janitor?" =
      ("The node 'janitor' does not exist in the graph.", Final.graph_agent) := by
  have hpt : Final.parsed_target "Who is connected to Janitor?" = "janitor" := by
    have hl : pyLower "Who is connected to Janitor?" = "who is connected to janitor?" := by
      decide
    unfold Final.parsed_target
    rw [hl]
    have hs : splitSub "to ".data "who is connected to janitor?".data
        = ["who is connected ".data, "janitor?".data] := by
      simp [splitSub]
    rw [hs]
    decide
  have h := kg_absent_node_message Final.graph_agent "Who is connected to Janitor?"
    (by decide) (by rw [hpt]; decide)
  rw [hpt] at h
  exact h

/-- Claim C4: because `act` lowercases the whole query before parsing, a graph
whose node names all hold an uppercase ASCII letter answers every well-formed
query with the does-not-exist message; in particular all six nodes of the
demonstration graph are unreachable through the documented query format. -/
theorem kg_lowercase_unreachable :
    (∀ (ag : Final.KnowledgeGraphAgent) (query : String),
        (∀ n ∈ ag.graph.nodes, has_upper_ascii n = true) →
        containsSub "to ".data (pyLower query).data = true →
        (Final.KnowledgeGraphAgent.act ag query).1 =
          "The node '" ++ Final.parsed_target query ++ "' does not exist in the graph.")
    ∧ (∀ n ∈ Final.demo_graph.nodes, has_upper_ascii n = true)
    ∧ Final.demo_graph.nodes
        = ["Hospital", "Doctor", "Patient A", "Patient B", "Nurse", "Clinic"] := by
  refine ⟨?_, by decide, by decide⟩
  intro ag query hup hwf
  have habs := kg_upper_not_contains ag query hup hwf
  rw [kg_act_absent_core ag query hwf habs]

/-- Witness for C4: the documented query for the demonstration node `Doctor`
returns the does-not-exist message for `doctor`. -/
theorem kg_lowercase_unreachable_witness :
    (Final.KnowledgeGraphAgent.act Final.graph_agent "Who is connected to Doctor?").1 =
      "The node 'doctor' does not exist in the graph." := by
  have hpt : Final.parsed_target "Who is connected to Doctor?" = "doctor" := by
    have hl : pyLower "Who is connected to Doctor?" = "who is connected to doctor?" := by
      decide
    unfold Final.parsed_target
    rw [hl]
    have hs : splitSub "to ".data "who is connected to doctor?".data
        = ["who is connected ".data, "doctor?".data] := by
      simp [splitSub]
    rw [hs]
    decide
  have h := kg_lowercase_unreachable.1 Final.graph_agent "Who is connected to Doctor?"
    (by decide) (by decide)
  rw [hpt] at h
  exact h

/-- A weather client whose call always raises, for concrete evaluations. -/
def weather_fail_client : String → WeatherOutcome :=
  fun _ => WeatherOutcome.failure "boom"

/-- The async assistant of the counterexample, as built by `__init__`. -/
def ce_agent : Final.AssistantAgent :=
  Final.mkAssistantAgent "Cody" "assistant" weather_fail_client

/-- Counterexample to C1 as stated: in the async variant the prompt
`"weather today"` normalises to a non-key of the knowledge base, yet `act`
does not return the fallback string — it answers with the weather lookup. -/
theorem assistant_unknown_prompt_fallback_ce :
    kb_lookup ce_agent.knowledge_base (clean_prompt "weather today") = none
    ∧ (Final.AssistantAgent.act ce_agent "weather today").1 ≠ fallback_response := by
  constructor
  · decide
  · decide

/-- Claim C1 (amended): a prompt whose normalised form is not a key gets the
fallback string — in the sync variant unconditionally, in the async variant
only when the normalised prompt also does not contain `"weather"`; when it
does contain `"weather"`, the async `act` answers with the Bangalore weather
lookup instead. -/
theorem assistant_unknown_prompt_fallback :
    (∀ (a : AssistantAgent) (prompt : String),
        kb_lookup a.knowledge_base (clean_prompt prompt) = none →
        (AssistantAgent.act a prompt).1 = fallback_response)
    ∧ (∀ (a : Final.AssistantAgent) (prompt : String),
        containsSub "weather".data (clean_prompt prompt).data = false →
        kb_lookup a.knowledge_base (clean_prompt prompt) = none →
        (Final.AssistantAgent.act a prompt).1 = fallback_response)
    ∧ (∀ (a : Final.AssistantAgent) (prompt : String),
        containsSub "weather".data (clean_prompt prompt).data = true →
        (Final.AssistantAgent.act a prompt).1 =
          Final.AssistantAgent.get_weather_info a "Bangalore") := by
  refine ⟨?_, ?_, ?_⟩
  · intro a prompt h
    simp only [AssistantAgent.act]
    exact dict_get_none _ _ _ h
  · intro a prompt hw h
    simp only [Final.AssistantAgent.act]
    rw [if_neg (by simp [hw])]
    exact dict_get_none _ _ _ h
  · intro a prompt hw
    simp only [Final.AssistantAgent.act]
    rw [if_pos hw]

/-- Witness for the amended C1 at a concrete unknown prompt of the sync
variant. -/
theorem assistant_unknown_prompt_fallback_witness :
    (AssistantAgent.act (mkAssistantAgent "Cody" "assistant")
        "what is the capital of France").1 = fallback_response :=
  assistant_unknown_prompt_fallback.1 (mkAssistantAgent "Cody" "assistant")
    "what is the capital of France" (by decide)

/-- Claim C2: a prompt whose normalised form equals a knowledge-base key gets
exactly the stored response — in the sync variant for any knowledge base, in
the async variant for assistants as built by `__init__` (whose four keys do
not contain `"weather"`). -/
theorem assistant_known_key_response :
    (∀ (a : AssistantAgent) (prompt : String) (kv : String × String),
        kb_lookup a.knowledge_base (clean_prompt prompt) = some kv →
        (AssistantAgent.act a prompt).1 = kv.2)
    ∧ (∀ (name role : String) (client : String → WeatherOutcome)
          (prompt : String) (kv : String × String),
        kb_lookup (Final.mkAssistantAgent name role client).knowledge_base
            (clean_prompt prompt) = some kv →
        (Final.AssistantAgent.act (Final.mkAssistantAgent name role client) prompt).1
          = kv.2) := by
  constructor
  · intro a prompt kv h
    simp only [AssistantAgent.act]
    exact dict_get_some _ _ _ _ h
  · intro name role client prompt kv h
    have hkeq : clean_prompt prompt = kv.1 := by
      have h2 := h
      rw [kb_lookup] at h2
      have hbeq := List.find?_some h2
      exact (eq_of_beq hbeq).symm
    have hmem : kv ∈ (Final.mkAssistantAgent name role client).knowledge_base := by
      have h2 := h
      rw [kb_lookup] at h2
      exact List.mem_of_find?_eq_some h2
    have hw : containsSub "weather".data (clean_prompt prompt).data = false := by
      rw [hkeq]
      simp only [Final.mkAssistantAgent, List.mem_cons, List.not_mem_nil, or_false] at hmem
      have hk1 : kv.1 = "hello" ∨ kv.1 = "name" ∨ kv.1 = "time" ∨ kv.1 = "help" := by
        rcases hmem with h1 | h1 | h1 | h1
        · exact Or.inl (by rw [h1])
        · exact Or.inr (Or.inl (by rw [h1]))
        · exact Or.inr (Or.inr (Or.inl (by rw [h1])))
        · exact Or.inr (Or.inr (Or.inr (by rw [h1])))
      rcases hk1 with h1 | h1 | h1 | h1 <;> rw [h1] <;> decide
    simp only [Final.AssistantAgent.act]
    rw [if_neg (by simp [hw])]
    exact dict_get_some _ _ _ _ h

/-- Witness for C2 on the async variant: the known key `hello`, reached from
the unnormalised prompt `"Hello"`. -/
theorem assistant_known_key_response_witness :
    (Final.AssistantAgent.act (Final.mkAssistantAgent "Cody" "assistant" weather_fail_client)
        "Hello").1 = "Hello! How can I help you today?" :=
  assistant_known_key_response.2 "Cody" "assistant" weather_fail_client "Hello"
    ("hello", "Hello! How can I help you today?") (by decide)
